import Mathlib

/-!
Verification development for the relais-client reverse-tunnel agent.

The JavaScript sources are shallowly embedded as pure Lean functions:
byte buffers become `List Nat` (entries intended `< 256`), JS strings become
`List Char`, timestamps become `Int` (milliseconds), and fallible code
returns `Except` / `Option`.  Platform builtins that the repository merely
calls (Node `crypto`, `JSON`, `Buffer` base64, `String.prototype.trim`,
`parseInt`) are modelled explicitly; each such model carries a doc comment
saying what it stands for.
-/

/-! ## Generic character-list helpers (model of JS string operations) -/

/-- Model of JS `String.prototype.startsWith` on character lists:
`startsSeq l n` is true when `n` is an initial segment of `l`. -/
def startsSeq : List Char → List Char → Bool
  | _, [] => true
  | [], _ :: _ => false
  | a :: l, b :: n => a == b && startsSeq l n

/-- Model of JS `String.prototype.includes` on character lists:
`hasSubSeq l n` is true when `n` occurs contiguously inside `l`. -/
def hasSubSeq : List Char → List Char → Bool
  | [], n => startsSeq [] n
  | a :: t, n => startsSeq (a :: t) n || hasSubSeq t n

/-! ## Failure tracker (`src/utils/failure-tracker.js`) -/

/-- State of `ConnectionFailureTracker`: two timestamp lists (milliseconds,
as produced by `Date.now()`), one for server-initiated closures and one for
network errors. -/
structure TrackerState where
  serverClosures : List Int
  networkErrors : List Int
  deriving Repr, DecidableEq

/-- `failureWindowSeconds = 60` from the constructor. -/
def failureWindowSeconds : Nat := 60

/-- `maxBackoffDuration = 30000` from the constructor. -/
def maxBackoffDuration : Nat := 30000

/-- `ConnectionFailureTracker.recordServerClosure` at time `now`: push the
timestamp, then drop entries at or before `now - 60s`. -/
def recordServerClosure (st : TrackerState) (now : Int) : TrackerState :=
  let pushed := st.serverClosures ++ [now]
  let cutoff := now - (failureWindowSeconds : Int) * 1000
  { st with serverClosures := pushed.filter (fun ts => decide (cutoff < ts)) }

/-- `ConnectionFailureTracker.recordNetworkError` at time `now`. -/
def recordNetworkError (st : TrackerState) (now : Int) : TrackerState :=
  let pushed := st.networkErrors ++ [now]
  let cutoff := now - (failureWindowSeconds : Int) * 1000
  { st with networkErrors := pushed.filter (fun ts => decide (cutoff < ts)) }

/-- `ConnectionFailureTracker.getBackoffDuration` evaluated at time `now`:
counts the recent server closures and network errors (strictly newer than
`now - 60s`) and returns `1000` for zero failures, otherwise
`min(1000 * 2^(total-1), 30000)`. -/
def getBackoffDuration (st : TrackerState) (now : Int) : Nat :=
  let cutoff := now - (failureWindowSeconds : Int) * 1000
  let recentServerClosures := (st.serverClosures.filter (fun ts => decide (cutoff < ts))).length
  let recentNetworkErrors := (st.networkErrors.filter (fun ts => decide (cutoff < ts))).length
  let totalRecentFailures := recentServerClosures + recentNetworkErrors
  if totalRecentFailures = 0 then 1000
  else min (1000 * 2 ^ (totalRecentFailures - 1)) maxBackoffDuration

/-- `ConnectionFailureTracker.shouldStopReconnecting` at time `now`. -/
def shouldStopReconnecting (st : TrackerState) (now : Int) : Bool :=
  let cutoff := now - (failureWindowSeconds : Int) * 1000
  let recentClosures := (st.serverClosures.filter (fun ts => decide (cutoff < ts))).length
  decide (4 ≤ recentClosures)

/-- `ConnectionFailureTracker.reset`. -/
def trackerReset (_st : TrackerState) : TrackerState :=
  { serverClosures := [], networkErrors := [] }

/-- The number of recorded failures (either kind) whose timestamp lies
strictly within the last 60 seconds before `now` — the `N` of the spec. -/
def recentFailureTotal (st : TrackerState) (now : Int) : Nat :=
  (st.serverClosures ++ st.networkErrors).countP
    (fun ts => decide (now - (failureWindowSeconds : Int) * 1000 < ts))

/-! ## Base64 (model of Node `Buffer.toString` / `Buffer.from` with base64 encoding)

Modelled from the spec: the framing codecs transport
`base64-ascii(PAYLOAD)`; base64 itself is a platform builtin, embedded
here as the standard RFC 4648 alphabet with `=` padding, operating on
byte lists (`List Nat`, entries `< 256`) and producing ASCII codes. -/

/-- Standard base64 alphabet: index (`< 64`) to ASCII code. -/
def b64char (i : Nat) : Nat :=
  if i < 26 then 65 + i
  else if i < 52 then 97 + (i - 26)
  else if i < 62 then 48 + (i - 52)
  else if i = 62 then 43
  else 47

/-- Inverse alphabet: ASCII code to index. -/
def b64val (c : Nat) : Option Nat :=
  if 65 ≤ c ∧ c ≤ 90 then some (c - 65)
  else if 97 ≤ c ∧ c ≤ 122 then some (c - 97 + 26)
  else if 48 ≤ c ∧ c ≤ 57 then some (c - 48 + 52)
  else if c = 43 then some 62
  else if c = 47 then some 63
  else none

/-- Base64-encode a byte list (ASCII output, with `=` padding). -/
def encodeB64 : List Nat → List Nat
  | [] => []
  | [b0] => [b64char (b0 / 4), b64char (b0 % 4 * 16), 61, 61]
  | [b0, b1] => [b64char (b0 / 4), b64char (b0 % 4 * 16 + b1 / 16), b64char (b1 % 16 * 4), 61]
  | b0 :: b1 :: b2 :: rest =>
      b64char (b0 / 4) :: b64char (b0 % 4 * 16 + b1 / 16) ::
      b64char (b1 % 16 * 4 + b2 / 64) :: b64char (b2 % 64) :: encodeB64 rest

/-- Base64-decode an ASCII list back into bytes; `none` on malformed input. -/
def decodeB64 : List Nat → Option (List Nat)
  | [] => some []
  | c0 :: c1 :: c2 :: c3 :: rest =>
      match b64val c0, b64val c1 with
      | some v0, some v1 =>
          if c2 = 61 then
            if c3 = 61 ∧ rest = [] then some [v0 * 4 + v1 / 16] else none
          else
            match b64val c2 with
            | some v2 =>
                if c3 = 61 then
                  if rest = [] then some [v0 * 4 + v1 / 16, v1 % 16 * 16 + v2 / 4] else none
                else
                  match b64val c3, decodeB64 rest with
                  | some v3, some bs =>
                      some ((v0 * 4 + v1 / 16) :: (v1 % 16 * 16 + v2 / 4) ::
                            (v2 % 4 * 64 + v3) :: bs)
                  | _, _ => none
            | none => none
      | _, _ => none
  | _ => none

/-! ## Binary handshake codec (`src/crypto/secure-channel.js`, bottom half)

A JSON object is represented by its serialized UTF-8 bytes.
Modelled from the spec: `JSON.stringify` / `JSON.parse` are platform
builtins, assumed mutually inverse on well-formed documents; the codec
below therefore works directly on the serialized payload, exactly as the
source works on `Buffer.from(JSON.stringify(obj))`. -/

/-- `BINARY_PROTOCOL_MAGIC = 0x00`. -/
def BINARY_PROTOCOL_MAGIC : Nat := 0

/-- Model of `Buffer.writeUInt32BE`: the four big-endian bytes of `n`. -/
def u32be (n : Nat) : List Nat :=
  [n / 16777216 % 256, n / 65536 % 256, n / 256 % 256, n % 256]

/-- Model of `Buffer.readUInt32BE` on the first four bytes of a list. -/
def readU32BE (l : List Nat) : Nat :=
  match l with
  | a :: b :: c :: d :: _ => a * 16777216 + b * 65536 + c * 256 + d
  | _ => 0

/-- Errors thrown by the framing codecs; the spec calls these
`ProtocolError`. -/
inductive CodecError where
  | protocolError (msg : List Char)
  deriving Repr, DecidableEq

/-- `encodeBinaryHandshake(jsonObj)`: `[0x00][4-byte length BE][base64(JSON)]`,
with the JSON object given by its serialized bytes. -/
def encodeBinaryHandshake (payload : List Nat) : List Nat :=
  let base64 := encodeB64 payload
  BINARY_PROTOCOL_MAGIC :: u32be base64.length ++ base64

/-- `decodeBinaryHandshake(buffer)`: checks the 5-byte header, the magic
byte, the `64 * 1024` length ceiling and completeness, then base64-decodes
the payload; returns the decoded serialized JSON together with
`bytesConsumed`. -/
def decodeBinaryHandshake (buffer : List Nat) : Except CodecError (List Nat × Nat) :=
  if buffer.length < 5 then
    .error (.protocolError "Buffer too short for binary handshake".toList)
  else if buffer.headD 0 ≠ BINARY_PROTOCOL_MAGIC then
    .error (.protocolError "Invalid magic byte for binary handshake".toList)
  else
    let length := readU32BE (buffer.drop 1)
    if length > 64 * 1024 then
      .error (.protocolError "Handshake message too large".toList)
    else if buffer.length < 5 + length then
      .error (.protocolError "Incomplete binary handshake message".toList)
    else
      match decodeB64 ((buffer.drop 5).take length) with
      | some jsonBytes => .ok (jsonBytes, 5 + length)
      | none => .error (.protocolError "Error decoding binary handshake".toList)

/-! ## Secure channel (`src/crypto/secure-channel.js`, class `SecureChannel`)

Modelled from the spec: ECDH P-256, HKDF-SHA256 and AES-256-GCM are
platform primitives (`crypto.createECDH`, `crypto.hkdfSync`,
`crypto.createCipheriv` with aes-256-gcm).  They are embedded as an ideal
authenticated cipher: the keystream masks bytes by XOR, and the GCM tag is
an injective function of (key, nonce, ciphertext) — the idealisation of
"the GCM tag alone is relied on for integrity".  The tag is carried as an
unbounded natural because a fixed 128-bit tag gives only computational
integrity, which has no absolute counterpart. -/

/-- Injective encoding of a byte list into a natural (helper for the ideal
tag and keystream). -/
def encListNat : List Nat → Nat
  | [] => 0
  | a :: l => Nat.pair a (encListNat l) + 1

/-- Ideal keystream byte `i` for a given AES key and nonce. -/
def gcmKeystream (key nonceCode i : Nat) : Nat :=
  (key + nonceCode + i) % 256

/-- XOR a byte list against the ideal keystream starting at position `i`;
applying it twice restores the input (CTR-mode model, so the ciphertext
has the same length as the plaintext). -/
def gcmMask (key nonceCode : Nat) : Nat → List Nat → List Nat
  | _, [] => []
  | i, b :: r => (b ^^^ gcmKeystream key nonceCode i) :: gcmMask key nonceCode (i + 1) r

/-- Ideal GCM authentication tag: injective in (key, nonce, ciphertext). -/
def gcmTag (key : Nat) (nonce ciphertext : List Nat) : Nat :=
  Nat.pair key (Nat.pair (encListNat nonce) (encListNat ciphertext))

/-- Errors thrown by `SecureChannel`; the spec calls the missing-key error
`StateError` and decryption failures `CryptoError`. -/
inductive ChannelError where
  | stateError (msg : List Char)
  | cryptoError (msg : List Char)
  deriving Repr, DecidableEq

/-- The `StateError` message thrown by both `encrypt` and `decrypt` when
`this.aesKey` is unset. -/
def sharedSecretNotDerivedMsg : List Char :=
  "Shared secret not derived. Call deriveSharedSecret() first.".toList

/-- State of a `SecureChannel` instance: the ephemeral ECDH private key and
the two fields that start as `null` and are set by `deriveSharedSecret`. -/
structure SecureChannel where
  ecdhPriv : Nat
  sharedSecret : Option Nat
  aesKey : Option Nat
  deriving Repr, DecidableEq

/-- The constructor: fresh key pair, `sharedSecret = null`, `aesKey = null`. -/
def SecureChannel.create (ecdhPriv : Nat) : SecureChannel :=
  { ecdhPriv := ecdhPriv, sharedSecret := none, aesKey := none }

/-- Modelled from the spec: `ecdh.computeSecret` (P-256 point multiply) as
an injective pairing of the two key inputs. -/
def ecdhComputeSecret (priv serverPub : Nat) : Nat :=
  Nat.pair priv serverPub

/-- Modelled from the spec: `crypto.hkdfSync` (sha256, Z, salt, info, 32)
as an injective function of the shared secret. -/
def hkdfSha256 (sharedSecret : Nat) : Nat :=
  Nat.pair sharedSecret 0 + 1

/-- `SecureChannel.deriveSharedSecret(serverPublicKeyBase64)`: sets both
`sharedSecret` and `aesKey`. -/
def SecureChannel.deriveSharedSecret (ch : SecureChannel) (serverPub : Nat) : SecureChannel :=
  let z := ecdhComputeSecret ch.ecdhPriv serverPub
  { ch with sharedSecret := some z, aesKey := some (hkdfSha256 z) }

/-- `SecureChannel.isEstablished()`. -/
def SecureChannel.isEstablished (ch : SecureChannel) : Bool :=
  ch.aesKey.isSome

/-- The post-decode record `NONCE(12) || CIPHERTEXT || TAG(16)`:
`bytes` carries `nonce ++ ciphertext` (the region `encryptedData.slice(0, -16)` of the source) and `tag` the ideal trailing tag. -/
structure GcmEnvelope where
  bytes : List Nat
  tag : Nat
  deriving Repr, DecidableEq

/-- Result of `SecureChannel.encrypt`: the 4-byte big-endian length prefix
value (`12 + ciphertext.length + 16`) followed by the envelope. -/
structure EncryptedRecord where
  lenField : Nat
  env : GcmEnvelope
  deriving Repr, DecidableEq

/-- `SecureChannel.encrypt(plaintext)`.  The fresh CSPRNG nonce is passed
explicitly; the method reads `this.aesKey` and never writes any field, so
it returns the channel unchanged alongside the result. -/
def SecureChannel.encrypt (ch : SecureChannel) (plaintext nonce : List Nat) :
    SecureChannel × Except ChannelError EncryptedRecord :=
  match ch.aesKey with
  | none => (ch, .error (.stateError sharedSecretNotDerivedMsg))
  | some key =>
      let encrypted := gcmMask key (encListNat nonce) 0 plaintext
      let authTag := gcmTag key nonce encrypted
      let totalLen := 12 + encrypted.length + 16
      (ch, .ok { lenField := totalLen, env := { bytes := nonce ++ encrypted, tag := authTag } })

/-- `SecureChannel.decrypt(encryptedData)`: rejects when the key is unset
or the data is shorter than `12 + 16`, splits the nonce
(`slice(0, 12)`), tag (`slice(-16)`) and ciphertext (`slice(12, -16)`),
and the ideal GCM check rejects any (nonce, ciphertext, tag) triple that
was not produced with this key.  Reads `this.aesKey` only, so the channel
is returned unchanged. -/
def SecureChannel.decrypt (ch : SecureChannel) (env : GcmEnvelope) :
    SecureChannel × Except ChannelError (List Nat) :=
  match ch.aesKey with
  | none => (ch, .error (.stateError sharedSecretNotDerivedMsg))
  | some key =>
      if env.bytes.length + 16 < 12 + 16 then
        (ch, .error (.cryptoError "Encrypted data too short".toList))
      else
        let nonce := env.bytes.take 12
        let ciphertext := env.bytes.drop 12
        if gcmTag key nonce ciphertext = env.tag then
          (ch, .ok (gcmMask key (encListNat nonce) 0 ciphertext))
        else
          (ch, .error (.cryptoError "Unsupported state or unable to authenticate data".toList))

/-! ## Pending-decode socket events

Each of the three control-stream decoders installs `onData` / `onError` /
`onEnd` / `onClose` listeners while a `decode()` is outstanding.  The
handlers are pure dispatch on the event kind: we embed the listener set of each decoder as a function from the event to the fate of the pending
promise. -/

/-- A socket event observed by a pending `decode()`. -/
inductive SockEvent where
  | dataEv (chunk : List Nat)
  | errorEv (msg : List Char)
  | endEv
  | closeEv
  deriving Repr, DecidableEq

/-- Fate of the pending decode promise after one event. -/
inductive PendingOutcome where
  | buffered
  | rejected (msg : List Char)
  deriving Repr, DecidableEq

/-- The sentinel message both EOF and local destroy produce. -/
def connectionClosedMsg : List Char := "Connection closed by server".toList

/-- Node emits `close` (not necessarily `end`) when the socket is destroyed
locally — recorded in the source comment above `onClose` in
`createJSONDecoder` (`src/tunnel/tunnel-service.js`). -/
def localDestroyEvent : SockEvent := .closeEv

/-- Listener set of `BinaryHandshakeDecoder.decode`
(`src/crypto/secure-channel.js`): `onData` buffers and retries the parse;
`onError` rejects with the socket error; `onEnd` and `onClose` reject with
the sentinel message. -/
def binaryHandshakeDecoderOnEvent : SockEvent → PendingOutcome
  | .dataEv _ => .buffered
  | .errorEv e => .rejected e
  | .endEv => .rejected ("Connection closed by server".toList)
  | .closeEv => .rejected ("Connection closed by server".toList)

/-- Listener set of `SecureJSONDecoder.decode`
(`src/crypto/secure-channel.js`). -/
def secureJSONDecoderOnEvent : SockEvent → PendingOutcome
  | .dataEv _ => .buffered
  | .errorEv e => .rejected e
  | .endEv => .rejected ("Connection closed by server".toList)
  | .closeEv => .rejected ("Connection closed by server".toList)

/-- Listener set of the plaintext `createJSONDecoder(socket).decode`
(`src/tunnel/tunnel-service.js`). -/
def plainJSONDecoderOnEvent : SockEvent → PendingOutcome
  | .dataEv _ => .buffered
  | .errorEv e => .rejected e
  | .endEv => .rejected ("Connection closed by server".toList)
  | .closeEv => .rejected ("Connection closed by server".toList)

/-! ## Heartbeat watchdog (`startHeartbeatMonitoring`,
`src/tunnel/tunnel-service.js`) -/

/-- What one tick of the `setInterval` callback does. -/
inductive HeartbeatAction where
  | destroySocket
  | logWarning
  | noAction
  deriving Repr, DecidableEq

/-- `heartbeatInterval = 30000` from `startHeartbeatMonitoring`. -/
def heartbeatInterval : Int := 30000

/-- `warningInterval = 120000` from `startHeartbeatMonitoring`. -/
def warningInterval : Int := 120000

/-- One tick of the heartbeat watchdog: `timeSinceLastHeartbeat >
heartbeatInterval` destroys the socket (and clears the interval);
otherwise, past `warningInterval` with no warning shown yet, it logs a
warning. -/
def heartbeatTick (now lastHeartbeatReceived : Int) (warningShown : Bool) : HeartbeatAction :=
  let timeSinceLastHeartbeat := now - lastHeartbeatReceived
  if timeSinceLastHeartbeat > heartbeatInterval then .destroySocket
  else if timeSinceLastHeartbeat > warningInterval ∧ warningShown = false then .logWarning
  else .noAction

/-! ## Supervisor loop of the `tunnel` CLI command (part_008) and the
tunnel-reply classification in `connectAndServe`
(`src/tunnel/tunnel-service.js`) -/

/-- `connectAndServe` on a non-`OK` `TUNNEL` reply: an `error` containing
`"Token"` throws `Authentication error: <error>`, anything else throws
`Server error: <error>`; an `OK` reply throws nothing (`none`). -/
def tunnelReplyThrown (status errorField : List Char) : Option (List Char) :=
  if status = "OK".toList then none
  else if hasSubSeq errorField ("Token".toList) then
    some ("Authentication error: ".toList ++ errorField)
  else
    some ("Server error: ".toList ++ errorField)

/-- What the `catch` block of the supervisor decides to do with one session
error. -/
inductive SupAction where
  | exitProcess (code : Nat)
  | waitForServerRecovery
  | retryNoBackoff
  | resetTrackerRetryNoBackoff
  | recordServerClosureBackoff
  | recordNetworkErrorBackoff
  deriving Repr, DecidableEq

/-- `ConnectionFailureTracker.isNetworkError`, message part: the message
contains one of the six network error codes.  (The `error.code === code`
alternative is subsumed here because the model carries the message only.) -/
def isNetworkErrorMsg (msg : List Char) : Bool :=
  hasSubSeq msg ("EHOSTUNREACH".toList) || hasSubSeq msg ("ENETUNREACH".toList) ||
  hasSubSeq msg ("ECONNREFUSED".toList) || hasSubSeq msg ("ETIMEDOUT".toList) ||
  hasSubSeq msg ("ENOTFOUND".toList) || hasSubSeq msg ("EAI_AGAIN".toList)

/-- The `catch` dispatch of the `while (true)` loop of the `tunnel` command
(part_008, CLI): auth errors exit the process with code 1; the health
monitor waits for recovery; establishment timeout and tunnel-health
restarts retry at once; `Connection closed by server` records a server
closure and sleeps the backoff; everything else records a network error
and sleeps the backoff. -/
def tunnelCommandCatch (msg : List Char) : SupAction :=
  if hasSubSeq msg ("Token".toList) || hasSubSeq msg ("Authentication".toList) then
    .exitProcess 1
  else if hasSubSeq msg ("Connection lost due to server health check failure".toList) then
    .waitForServerRecovery
  else if hasSubSeq msg ("Tunnel establishment timeout".toList) then
    .retryNoBackoff
  else if hasSubSeq msg ("Tunnel health check triggered reconnection".toList) then
    .resetTrackerRetryNoBackoff
  else if hasSubSeq msg ("Connection closed by server".toList) then
    .recordServerClosureBackoff
  else if isNetworkErrorMsg msg then
    .recordNetworkErrorBackoff
  else
    .recordNetworkErrorBackoff

/-! ## JS number / string builtins used by the configuration code -/

/-- Is `c` an ASCII decimal digit? -/
def isDigitChar (c : Char) : Bool :=
  '0' ≤ c && c ≤ '9'

/-- Whitespace for JS `parseInt` / `trim` (the common cases). -/
def isWsChar (c : Char) : Bool :=
  c == ' ' || c == '\t' || c == '\n' || c == '\r'

/-- Digits to a natural, most significant first. -/
def digitsToNat (ds : List Char) : Nat :=
  ds.foldl (fun acc c => acc * 10 + (c.toNat - 48)) 0

/-- Modelled from the spec: JS `parseInt(s)` (radix 10) — skip leading
whitespace, read an optional sign and then a maximal digit run, ignore the
rest; `none` models `NaN` (no digits found).  Fractional inputs such as
`"0.5"` therefore truncate to `0`. -/
def parseIntJs (s : List Char) : Option Int :=
  let s1 := s.dropWhile isWsChar
  match s1 with
  | '-' :: r =>
      let ds := r.takeWhile isDigitChar
      if ds.isEmpty then none else some (-(digitsToNat ds : Int))
  | '+' :: r =>
      let ds := r.takeWhile isDigitChar
      if ds.isEmpty then none else some (digitsToNat ds : Int)
  | _ =>
      let ds := s1.takeWhile isDigitChar
      if ds.isEmpty then none else some (digitsToNat ds : Int)

/-! ## Tunnel health-check interval
(`connectAndServe`, `src/tunnel/tunnel-service.js`, and the
`TunnelHealthChecker` constructor, part_004) -/

/-- `parseInt(options.healthCheckInterval) || 30`, then `* 1000`
(`connectAndServe`): the falsy values `NaN` and `0` fall back to the
30-second default. -/
def healthCheckIntervalMs (healthCheckIntervalOpt : List Char) : Int :=
  let healthCheckIntervalSeconds : Int :=
    match parseIntJs healthCheckIntervalOpt with
    | none => 30
    | some n => if n = 0 then 30 else n
  healthCheckIntervalSeconds * 1000

/-- `this.checkInterval = options.checkInterval || 30000` from the
`TunnelHealthChecker` constructor (part_004). -/
def tunnelHealthCheckerInterval (checkIntervalOpt : Int) : Int :=
  if checkIntervalOpt = 0 then 30000 else checkIntervalOpt

/-- The interval (ms) the tunnel-reachability checker is actually started
with for a given `--health-check-interval` string. -/
def effectiveHealthCheckIntervalMs (healthCheckIntervalOpt : List Char) : Int :=
  tunnelHealthCheckerInterval (healthCheckIntervalMs healthCheckIntervalOpt)

/-! ## Bidirectional splicer (`handleNewConnection`, part_004) -/

/-- The two outbound connections a NEWCONN pair needs. -/
inductive ConnTarget where
  | dataAddr
  | localService
  deriving Repr, DecidableEq

/-- Trace summary of one `handleNewConnection` run: which connects were
attempted in which order, whether the data stream was destroyed, which
streams are still open when the call finishes, and the error the function
rethrows (reported once to the caller). -/
structure SpliceOutcome where
  connectAttempts : List ConnTarget
  dataConnDestroyed : Bool
  dataOpenAtEnd : Bool
  localOpenAtEnd : Bool
  thrown : Option ConnTarget
  deriving Repr, DecidableEq

/-- `handleNewConnection(options, response)` with the two connect results
supplied as oracles (`true` = the TCP connect succeeds).  Step 1 dials
`data_addr`; only then does step 2 dial the local service.  A data-connect
failure rejects, and the `catch` destroys the data socket and rethrows.  A
local-connect failure runs the error listener (`dataConn.destroy()`),
rejects, and the `catch` destroys the data socket again and rethrows; the
local socket never connected.  On success both copiers run; after both
sides end, both sockets are destroyed. -/
def handleNewConnection (dataConnectOk localConnectOk : Bool) : SpliceOutcome :=
  if dataConnectOk = false then
    { connectAttempts := [.dataAddr]
      dataConnDestroyed := true
      dataOpenAtEnd := false
      localOpenAtEnd := false
      thrown := some .dataAddr }
  else if localConnectOk = false then
    { connectAttempts := [.dataAddr, .localService]
      dataConnDestroyed := true
      dataOpenAtEnd := false
      localOpenAtEnd := false
      thrown := some .localService }
  else
    { connectAttempts := [.dataAddr, .localService]
      dataConnDestroyed := true
      dataOpenAtEnd := false
      localOpenAtEnd := false
      thrown := none }

/-! ## Token persistence (`src/utils/config.js`) -/

/-- Modelled from the spec: JS `String.prototype.trim` — strip whitespace
from both ends.  `trimEnd` is written recursively: a whitespace character
is kept only if something non-whitespace follows it. -/
def trimEndJs : List Char → List Char
  | [] => []
  | a :: t =>
      let r := trimEndJs t
      if r.isEmpty && isWsChar a then [] else a :: r

/-- JS `String.prototype.trim`. -/
def trimJs (s : List Char) : List Char :=
  trimEndJs (s.dropWhile isWsChar)

/-- The token file as seen by `config.js`: `none` when absent. -/
def TokenFile : Type := Option (List Char)

/-- Errors surfaced by `saveToken` / `loadToken` (message text from the
source). -/
inductive ConfigError where
  | saveError (msg : List Char)
  | loadError (msg : List Char)
  deriving Repr, DecidableEq

/-- `saveToken(token)`: writes `token.trim()` to the token file, re-reads
it, and fails if the trimmed re-read differs from the trimmed input;
returns the new file state. -/
def saveToken (token : List Char) (_fs : TokenFile) : Except ConfigError TokenFile :=
  let written := trimJs token
  let fs2 : TokenFile := some written
  let savedToken := written
  if trimJs savedToken = trimJs token then .ok fs2
  else .error (.saveError "Error saving token: Token verification failed after save".toList)

/-- `loadToken()`: missing file is an error (`ENOENT` path), an
all-whitespace file is an error, otherwise the trimmed content is
returned. -/
def loadToken (fs : TokenFile) : Except ConfigError (List Char) :=
  match fs with
  | none => .error (.loadError "No token found. Please use the set-token command first.".toList)
  | some content =>
      let trimmedToken := trimJs content
      if trimmedToken.isEmpty then
        .error (.loadError
          "Token file is empty. Please use the set-token command to save a valid token.".toList)
      else .ok trimmedToken

/-! ## Helper lemmas -/

theorem hasSubSeq_append_left (p x n : List Char) (h : hasSubSeq x n = true) :
    hasSubSeq (p ++ x) n = true := by
  induction p with
  | nil => simpa using h
  | cons a t ih =>
      simp only [List.cons_append, hasSubSeq, Bool.or_eq_true]
      exact Or.inr ih

theorem b64val_b64char : ∀ i, i < 64 → b64val (b64char i) = some i := by decide

theorem b64char_ne_eq : ∀ i, i < 64 → b64char i ≠ 61 := by decide

theorem decodeB64_encodeB64 :
    ∀ l : List Nat, (∀ b ∈ l, b < 256) → decodeB64 (encodeB64 l) = some l
  | [], _ => rfl
  | [b0], h => by
      have hb0 : b0 < 256 := h b0 (by simp)
      have h0 : b64val (b64char (b0 / 4)) = some (b0 / 4) := b64val_b64char _ (by omega)
      have h1 : b64val (b64char (b0 % 4 * 16)) = some (b0 % 4 * 16) :=
        b64val_b64char _ (by omega)
      simp only [encodeB64, decodeB64, h0, h1]
      norm_num
      omega
  | [b0, b1], h => by
      have hb0 : b0 < 256 := h b0 (by simp)
      have hb1 : b1 < 256 := h b1 (by simp)
      have h0 : b64val (b64char (b0 / 4)) = some (b0 / 4) := b64val_b64char _ (by omega)
      have h1 : b64val (b64char (b0 % 4 * 16 + b1 / 16)) = some (b0 % 4 * 16 + b1 / 16) :=
        b64val_b64char _ (by omega)
      have h2 : b64val (b64char (b1 % 16 * 4)) = some (b1 % 16 * 4) :=
        b64val_b64char _ (by omega)
      have hne : b64char (b1 % 16 * 4) ≠ 61 := b64char_ne_eq _ (by omega)
      simp only [encodeB64, decodeB64, h0, h1, h2, if_neg hne]
      norm_num
      exact ⟨by omega, by omega⟩
  | b0 :: b1 :: b2 :: rest, h => by
      have hb0 : b0 < 256 := h b0 (by simp)
      have hb1 : b1 < 256 := h b1 (by simp)
      have hb2 : b2 < 256 := h b2 (by simp)
      have ih := decodeB64_encodeB64 rest (fun b hb => h b (by simp [hb]))
      have h0 : b64val (b64char (b0 / 4)) = some (b0 / 4) := b64val_b64char _ (by omega)
      have h1 : b64val (b64char (b0 % 4 * 16 + b1 / 16)) = some (b0 % 4 * 16 + b1 / 16) :=
        b64val_b64char _ (by omega)
      have h2 : b64val (b64char (b1 % 16 * 4 + b2 / 64)) = some (b1 % 16 * 4 + b2 / 64) :=
        b64val_b64char _ (by omega)
      have h3 : b64val (b64char (b2 % 64)) = some (b2 % 64) := b64val_b64char _ (by omega)
      have hne2 : b64char (b1 % 16 * 4 + b2 / 64) ≠ 61 := b64char_ne_eq _ (by omega)
      have hne3 : b64char (b2 % 64) ≠ 61 := b64char_ne_eq _ (by omega)
      cases rest with
      | nil =>
          simp only [encodeB64, decodeB64, h0, h1, h2, h3, if_neg hne2, if_neg hne3]
          norm_num
          exact ⟨by omega, by omega, by omega⟩
      | cons r0 rtail =>
          simp only [encodeB64] at ih ⊢
          simp only [decodeB64, h0, h1, h2, h3, if_neg hne2, if_neg hne3, ih]
          norm_num
          exact ⟨by omega, by omega, by omega⟩

theorem encodeB64_length (l : List Nat) :
    (encodeB64 l).length = 4 * ((l.length + 2) / 3) := by
  induction l using encodeB64.induct with
  | case1 => simp [encodeB64]
  | case2 b0 => simp [encodeB64]
  | case3 b0 b1 => simp [encodeB64]
  | case4 b0 b1 b2 rest ih =>
      simp only [encodeB64, List.length_cons, ih]
      omega

theorem readU32BE_u32be (n : Nat) (rest : List Nat) (h : n < 4294967296) :
    readU32BE (u32be n ++ rest) = n := by
  simp only [u32be, List.cons_append, readU32BE]
  omega

theorem decodeBinaryHandshake_tooLarge (payload : List Nat)
    (hlo : 49152 < payload.length) (hhi : payload.length ≤ 3221225469) :
    decodeBinaryHandshake (encodeBinaryHandshake payload) =
      .error (.protocolError "Handshake message too large".toList) := by
  have hb64len : (encodeB64 payload).length = 4 * ((payload.length + 2) / 3) :=
    encodeB64_length payload
  have htotal : (encodeBinaryHandshake payload).length = 5 + (encodeB64 payload).length := by
    simp only [encodeBinaryHandshake, List.length_cons, List.length_append, u32be]
    simp
  have hread : readU32BE ((encodeBinaryHandshake payload).drop 1) =
      (encodeB64 payload).length := by
    simp only [encodeBinaryHandshake, List.drop_succ_cons, List.drop_zero]
    exact readU32BE_u32be _ _ (by omega)
  rw [decodeBinaryHandshake]
  rw [if_neg (by omega)]
  rw [if_neg (by simp [encodeBinaryHandshake, BINARY_PROTOCOL_MAGIC])]
  simp only [hread]
  rw [if_pos (by omega)]

theorem encListNat_injective : ∀ l1 l2 : List Nat, encListNat l1 = encListNat l2 → l1 = l2
  | [], [], _ => rfl
  | [], _ :: _, h => by simp [encListNat] at h
  | _ :: _, [], h => by simp [encListNat] at h
  | a :: l1, b :: l2, h => by
      simp only [encListNat, Nat.add_right_cancel_iff] at h
      have h1 := congrArg Nat.unpair h
      simp only [Nat.unpair_pair, Prod.mk.injEq] at h1
      rw [h1.1, encListNat_injective l1 l2 h1.2]

theorem gcmMask_gcmMask (key nonceCode : Nat) :
    ∀ (i : Nat) (l : List Nat), gcmMask key nonceCode i (gcmMask key nonceCode i l) = l
  | _, [] => rfl
  | i, b :: r => by
      simp only [gcmMask, Nat.xor_cancel_right, List.cons.injEq]
      exact ⟨trivial, gcmMask_gcmMask key nonceCode (i + 1) r⟩

theorem gcmTag_inj {key : Nat} {n1 c1 n2 c2 : List Nat}
    (h : gcmTag key n1 c1 = gcmTag key n2 c2) : n1 = n2 ∧ c1 = c2 := by
  have h1 := congrArg Nat.unpair h
  simp only [gcmTag, Nat.unpair_pair, Prod.mk.injEq] at h1
  have h2 := congrArg Nat.unpair h1.2
  simp only [Nat.unpair_pair, Prod.mk.injEq] at h2
  exact ⟨encListNat_injective _ _ h2.1, encListNat_injective _ _ h2.2⟩

theorem length_dropWhile_ws_le : ∀ l : List Char, (l.dropWhile isWsChar).length ≤ l.length
  | [] => le_refl _
  | a :: t => by
      rw [List.dropWhile_cons]
      by_cases h : isWsChar a
      · simp only [h, if_pos]
        exact le_trans (length_dropWhile_ws_le t) (by simp)
      · simp [h]

theorem dropWhile_ws_head_false :
    ∀ (l : List Char) (a : Char) (t : List Char),
      l.dropWhile isWsChar = a :: t → isWsChar a = false
  | [], a, t, h => by simp at h
  | x :: xs, a, t, h => by
      rw [List.dropWhile_cons] at h
      by_cases hx : isWsChar x
      · rw [if_pos hx] at h
        exact dropWhile_ws_head_false xs a t h
      · rw [if_neg hx] at h
        rw [← (List.cons.injEq .. ▸ h :
              x = a ∧ xs = t).1] at *
        simpa using hx

theorem dropWhile_ws_idem (l : List Char) :
    (l.dropWhile isWsChar).dropWhile isWsChar = l.dropWhile isWsChar := by
  cases hd : l.dropWhile isWsChar with
  | nil => simp
  | cons a t =>
      have ha := dropWhile_ws_head_false l a t hd
      rw [List.dropWhile_cons, if_neg (by simp [ha])]

theorem trimEndJs_idem : ∀ l : List Char, trimEndJs (trimEndJs l) = trimEndJs l
  | [] => rfl
  | a :: t => by
      have ih := trimEndJs_idem t
      simp only [trimEndJs]
      by_cases hc : ((trimEndJs t).isEmpty && isWsChar a) = true
      · rw [if_pos hc]
        rfl
      · rw [if_neg hc]
        show trimEndJs (a :: trimEndJs t) = a :: trimEndJs t
        simp only [trimEndJs, ih]
        rw [if_neg hc]

theorem dropWhile_ws_trimEndJs (l : List Char) (hl : l.dropWhile isWsChar = l) :
    (trimEndJs l).dropWhile isWsChar = trimEndJs l := by
  cases l with
  | nil => rfl
  | cons a t =>
      have ha : isWsChar a = false := by
        rw [List.dropWhile_cons] at hl
        by_cases hx : isWsChar a
        · rw [if_pos hx] at hl
          have := length_dropWhile_ws_le t
          rw [hl] at this
          simp at this
        · simpa using hx
      simp only [trimEndJs]
      by_cases hc : (trimEndJs t).isEmpty && isWsChar a
      · simp [hc]
      · rw [if_neg (by simp_all), List.dropWhile_cons, if_neg (by simp [ha])]

theorem trimJs_idem (s : List Char) : trimJs (trimJs s) = trimJs s := by
  unfold trimJs
  rw [dropWhile_ws_trimEndJs _ (dropWhile_ws_idem s), trimEndJs_idem]

theorem gcmMask_length (key nc : Nat) :
    ∀ (i : Nat) (l : List Nat), (gcmMask key nc i l).length = l.length
  | _, [] => rfl
  | i, b :: r => by simp [gcmMask, gcmMask_length key nc (i + 1) r]

/-! ## Claim theorems -/

/-- C1: for every failure-tracker state, `getBackoffDuration()` returns
`min(30000 ms, 1000 × 2^(N−1))` where `N` is the total number of recorded
server closures plus network errors whose timestamps lie within the last
60 s, returns 1000 ms when `N = 0`, and never exceeds 30000 ms. -/
theorem getBackoffDuration_formula_and_cap (st : TrackerState) (now : Int) :
    (getBackoffDuration st now =
      if recentFailureTotal st now = 0 then 1000
      else min 30000 (1000 * 2 ^ (recentFailureTotal st now - 1))) ∧
    getBackoffDuration st now ≤ 30000 := by
  have hN : recentFailureTotal st now =
      (st.serverClosures.filter
        (fun ts => decide (now - (failureWindowSeconds : Int) * 1000 < ts))).length +
      (st.networkErrors.filter
        (fun ts => decide (now - (failureWindowSeconds : Int) * 1000 < ts))).length := by
    rw [recentFailureTotal, List.countP_append,
        List.countP_eq_length_filter, List.countP_eq_length_filter]
  have key : getBackoffDuration st now =
      if recentFailureTotal st now = 0 then 1000
      else min (1000 * 2 ^ (recentFailureTotal st now - 1)) maxBackoffDuration := by
    rw [getBackoffDuration, hN]
  constructor
  · rw [key, maxBackoffDuration, Nat.min_comm]
  · rw [key]
    by_cases h : recentFailureTotal st now = 0
    · simp [h]
    · rw [if_neg h, maxBackoffDuration]
      exact Nat.min_le_right _ _

/-- C2: a control session that ends because the `TUNNEL` reply was non-OK
with a `Token`-bearing error field produces an `Authentication error:`
message, and the supervisor loop of the `tunnel` command reacts to it by
terminating the process with exit code 1 (no reconnect action). -/
theorem authError_exits_process (status errorField : List Char)
    (hstatus : status ≠ "OK".toList)
    (hauth : hasSubSeq errorField ("Token".toList) = true) :
    ∃ m, tunnelReplyThrown status errorField = some m ∧
      tunnelCommandCatch m = SupAction.exitProcess 1 := by
  refine ⟨"Authentication error: ".toList ++ errorField, ?_, ?_⟩
  · rw [tunnelReplyThrown, if_neg hstatus, if_pos hauth]
  · have htok : hasSubSeq ("Authentication error: ".toList ++ errorField)
        ("Token".toList) = true :=
      hasSubSeq_append_left _ _ _ hauth
    rw [tunnelCommandCatch, if_pos (by rw [htok]; simp)]

/-- Witness for C2 at the scenario taken from the spec: reply
`{status: "ERR", error: "Invalid Token"}`. -/
theorem authError_exits_process_witness :
    ∃ m, tunnelReplyThrown "ERR".toList "Invalid Token".toList = some m ∧
      tunnelCommandCatch m = SupAction.exitProcess 1 :=
  authError_exits_process "ERR".toList "Invalid Token".toList (by decide) (by decide)

/-- C3: after key derivation, `decrypt(encrypt(m)) == m`, and any single
bit-flip in the transport envelope — a change confined to the byte region
(nonce or ciphertext) or to the tag, preserving the length — makes
decryption fail with a `CryptoError` instead of returning a different
plaintext. -/
theorem secureChannel_roundtrip_and_tamper (ch : SecureChannel) (key : Nat)
    (m nonce : List Nat) (env2 : GcmEnvelope)
    (hkey : ch.aesKey = some key) (hnonce : nonce.length = 12) :
    ∃ r : EncryptedRecord,
      (ch.encrypt m nonce).2 = .ok r ∧
      (ch.decrypt r.env).2 = .ok m ∧
      (env2 ≠ r.env → env2.bytes.length = r.env.bytes.length →
        (env2.bytes = r.env.bytes ∨ env2.tag = r.env.tag) →
        (ch.decrypt env2).2 =
          .error (.cryptoError "Unsupported state or unable to authenticate data".toList)) := by
  set ct := gcmMask key (encListNat nonce) 0 m with hct
  refine ⟨{ lenField := 12 + ct.length + 16,
            env := { bytes := nonce ++ ct, tag := gcmTag key nonce ct } }, ?_, ?_, ?_⟩
  · simp [SecureChannel.encrypt, hkey]
  · have htake : (nonce ++ ct).take 12 = nonce := by
      rw [← hnonce]
      exact List.take_left nonce ct
    have hdrop : (nonce ++ ct).drop 12 = ct := by
      rw [← hnonce]
      exact List.drop_left nonce ct
    have hlen : (nonce ++ ct).length + 16 < 12 + 16 → False := by
      simp [List.length_append, hnonce]
    simp only [SecureChannel.decrypt, hkey]
    rw [if_neg (by intro hcon; exact hlen hcon)]
    simp only [htake, hdrop, if_pos rfl]
    simp [hct, gcmMask_gcmMask]
  · intro hne hlen2 hflip
    have hblen : (nonce ++ ct).length = 12 + ct.length := by
      simp [List.length_append, hnonce]
    simp only [SecureChannel.decrypt, hkey]
    rw [if_neg (by simp only [hlen2, hblen]; omega)]
    rcases hflip with hbytes | htag
    · -- bytes unchanged, so the tag must differ
      have htagne : env2.tag ≠ gcmTag key nonce ct := by
        intro hcon
        exact hne (by cases env2 with
          | mk b t => simp only at hbytes hcon; rw [hbytes, hcon])
      have htake2 : env2.bytes.take 12 = nonce := by
        rw [hbytes, ← hnonce]
        exact List.take_left nonce ct
      have hdrop2 : env2.bytes.drop 12 = ct := by
        rw [hbytes, ← hnonce]
        exact List.drop_left nonce ct
      rw [htake2, hdrop2, if_neg (fun hcon => htagne hcon.symm)]
    · -- tag unchanged, so the byte region must differ
      have hbytesne : env2.bytes ≠ nonce ++ ct := by
        intro hcon
        exact hne (by cases env2 with
          | mk b t => simp only at hcon htag; rw [hcon, htag])
      rw [if_neg ?_]
      intro hcon
      rw [htag] at hcon
      have hsplit := gcmTag_inj hcon
      have : env2.bytes = nonce ++ ct := by
        rw [← List.take_append_drop 12 env2.bytes, hsplit.1, hsplit.2]
      exact hbytesne this

/-- Witness for C3: a keyed channel, the plaintext `"hi"` and an all-zero
12-byte nonce. -/
theorem secureChannel_roundtrip_and_tamper_witness :
    ∃ r : EncryptedRecord,
      (SecureChannel.encrypt ⟨1, some 5, some 7⟩ [104, 105] (List.replicate 12 0)).2 = .ok r ∧
      (SecureChannel.decrypt ⟨1, some 5, some 7⟩ r.env).2 = .ok [104, 105] ∧
      (∀ _ : GcmEnvelope.mk [] 0 ≠ r.env,
        (GcmEnvelope.mk [] 0).bytes.length = r.env.bytes.length →
        ((GcmEnvelope.mk [] 0).bytes = r.env.bytes ∨ (GcmEnvelope.mk [] 0).tag = r.env.tag) →
        (SecureChannel.decrypt ⟨1, some 5, some 7⟩ (GcmEnvelope.mk [] 0)).2 =
          .error (.cryptoError "Unsupported state or unable to authenticate data".toList)) :=
  secureChannel_roundtrip_and_tamper ⟨1, some 5, some 7⟩ 7 [104, 105]
    (List.replicate 12 0) (GcmEnvelope.mk [] 0) rfl (by decide)

/-- C4 (amended): for every JSON object whose serialized form fits the
base64 ceiling — serialized length at most 49152 bytes, so that
`4 * ceil(len / 3) <= 64 * 1024` — the binary handshake codec round-trips:
`decodeBinaryHandshake(encodeBinaryHandshake(j))` succeeds, returns
exactly `j`, and consumes exactly the encoded bytes. -/
theorem decodeBinaryHandshake_encodeBinaryHandshake (payload : List Nat)
    (hbytes : ∀ b ∈ payload, b < 256) (hlen : payload.length ≤ 49152) :
    decodeBinaryHandshake (encodeBinaryHandshake payload) =
      .ok (payload, (encodeBinaryHandshake payload).length) := by
  have hb64len : (encodeB64 payload).length = 4 * ((payload.length + 2) / 3) :=
    encodeB64_length payload
  have hb64le : (encodeB64 payload).length ≤ 65536 := by omega
  have htotal : (encodeBinaryHandshake payload).length = 5 + (encodeB64 payload).length := by
    simp only [encodeBinaryHandshake, List.length_cons, List.length_append, u32be]
    simp
  have hread : readU32BE ((encodeBinaryHandshake payload).drop 1) =
      (encodeB64 payload).length := by
    simp only [encodeBinaryHandshake, List.drop_succ_cons, List.drop_zero]
    exact readU32BE_u32be _ _ (by omega)
  rw [decodeBinaryHandshake]
  rw [if_neg (by omega)]
  rw [if_neg (by simp [encodeBinaryHandshake, BINARY_PROTOCOL_MAGIC])]
  simp only [hread]
  rw [if_neg (by omega)]
  rw [if_neg (by omega)]
  have hdrop : (encodeBinaryHandshake payload).drop 5 = encodeB64 payload := by
    simp [encodeBinaryHandshake, u32be]
  rw [hdrop, List.take_of_length_le (le_of_eq rfl), decodeB64_encodeB64 payload hbytes,
      htotal]

/-- Counterexample for C4 as stated: a JSON document of serialized length
49153 bytes (a quoted string of 49151 `a`s) is within the claimed
64 KiB bound, yet `decodeBinaryHandshake(encodeBinaryHandshake(j))` fails,
because the `64 * 1024` ceiling is checked against the base64 length
`4 * ceil(49153 / 3) = 65540`. -/
theorem decodeBinaryHandshake_rejects_within_64KiB :
    (34 :: List.replicate 49151 97 ++ [34]).length ≤ 65536 ∧
    decodeBinaryHandshake (encodeBinaryHandshake (34 :: List.replicate 49151 97 ++ [34])) =
      .error (.protocolError "Handshake message too large".toList) := by
  have hlen : (34 :: List.replicate 49151 97 ++ [34]).length = 49153 := by
    rw [List.length_append, List.length_cons, List.length_replicate]
    norm_num
  constructor
  · omega
  · exact decodeBinaryHandshake_tooLarge _ (by omega) (by omega)

/-- Witness for the amended C4 round-trip at the 3-byte payload `[1, 2, 3]`. -/
theorem decodeBinaryHandshake_encodeBinaryHandshake_witness :
    decodeBinaryHandshake (encodeBinaryHandshake [1, 2, 3]) =
      .ok ([1, 2, 3], (encodeBinaryHandshake [1, 2, 3]).length) :=
  decodeBinaryHandshake_encodeBinaryHandshake [1, 2, 3] (by decide) (by decide)

/-- C5: calling `encrypt` or `decrypt` before `deriveSharedSecret` has set
the AES key fails with the `StateError` message `Shared secret not derived...`,
and the failed call leaves the channel state unchanged. -/
theorem secureChannel_unkeyed_stateError (ch : SecureChannel)
    (m nonce : List Nat) (env : GcmEnvelope) (hkey : ch.aesKey = none) :
    ch.encrypt m nonce = (ch, .error (.stateError sharedSecretNotDerivedMsg)) ∧
    ch.decrypt env = (ch, .error (.stateError sharedSecretNotDerivedMsg)) := by
  constructor
  · simp [SecureChannel.encrypt, hkey]
  · simp [SecureChannel.decrypt, hkey]

/-- Witness for C5 at a freshly constructed channel. -/
theorem secureChannel_unkeyed_stateError_witness :
    SecureChannel.encrypt (SecureChannel.create 3) [1] [2] =
      (SecureChannel.create 3, .error (.stateError sharedSecretNotDerivedMsg)) ∧
    SecureChannel.decrypt (SecureChannel.create 3) (GcmEnvelope.mk [] 0) =
      (SecureChannel.create 3, .error (.stateError sharedSecretNotDerivedMsg)) :=
  secureChannel_unkeyed_stateError (SecureChannel.create 3) [1] [2] (GcmEnvelope.mk [] 0) rfl

/-- C6 (against the claim): on a watchdog tick with more than 120 s since
the last heartbeat and no warning shown, the code destroys the control
socket, and the warning branch is unreachable on every tick — the
`> 30 s` destroy branch is checked first and subsumes it. -/
theorem heartbeatTick_warning_unreachable :
    heartbeatTick 200000 0 false = .destroySocket ∧
    ∀ (now last : Int) (w : Bool), heartbeatTick now last w ≠ .logWarning := by
  constructor
  · rfl
  · intro now last w
    rw [heartbeatTick]
    by_cases h1 : now - last > heartbeatInterval
    · simp [h1]
    · rw [if_neg h1]
      have h2 : ¬(now - last > warningInterval ∧ w = false) := by
        rw [heartbeatInterval] at h1
        rw [warningInterval]
        intro hcon
        omega
      simp [h2]

/-- C7: every NEWCONN dials `data_addr` first and the local service
second; when the local connect fails, the already-open data stream is
destroyed, exactly one (local) error is thrown, and no stream stays
open. -/
theorem handleNewConnection_order_and_cleanup :
    (∀ localConnectOk : Bool,
      (handleNewConnection true localConnectOk).connectAttempts =
        [ConnTarget.dataAddr, ConnTarget.localService]) ∧
    handleNewConnection true false =
      { connectAttempts := [ConnTarget.dataAddr, ConnTarget.localService]
        dataConnDestroyed := true
        dataOpenAtEnd := false
        localOpenAtEnd := false
        thrown := some ConnTarget.localService } := by
  refine ⟨?_, by rfl⟩
  intro localConnectOk
  cases localConnectOk <;> rfl

/-- Counterexample for C8 as stated: the interval string `"0.5"` (half a
second) starts the checker with 30000 ms, not the claimed 1000 ms —
`parseInt` truncates it to the falsy `0`, which falls back to the
30-second default. -/
theorem healthCheckInterval_halfSecond_is_30s :
    effectiveHealthCheckIntervalMs "0.5".toList = 30000 ∧ (30000 : Int) ≠ 1000 := by
  constructor
  · rfl
  · decide

/-- C8 (amended): a configured health-check interval whose `parseInt`
value is `0` or `NaN` — in particular any nonnegative value below 1 s —
starts the tunnel-reachability checker with the default 30 s interval. -/
theorem healthCheckInterval_subSecond_default (s : List Char)
    (h : parseIntJs s = some 0 ∨ parseIntJs s = none) :
    effectiveHealthCheckIntervalMs s = 30000 := by
  rcases h with h | h <;>
    simp [effectiveHealthCheckIntervalMs, healthCheckIntervalMs, tunnelHealthCheckerInterval, h]

/-- Witness for the amended C8 statement at the interval string `"0"`. -/
theorem healthCheckInterval_subSecond_default_witness :
    effectiveHealthCheckIntervalMs "0".toList = 30000 :=
  healthCheckInterval_subSecond_default "0".toList (Or.inl (by decide))

/-- C9: all three control-stream decoders reject a pending decode on
`end` and on `close` — the event a locally initiated destroy raises —
with the same sentinel message `Connection closed by server`, so the
message cannot distinguish a local teardown from a server-sent EOF. -/
theorem decoders_close_sentinel_indistinguishable :
    binaryHandshakeDecoderOnEvent .endEv = .rejected connectionClosedMsg ∧
    binaryHandshakeDecoderOnEvent localDestroyEvent = .rejected connectionClosedMsg ∧
    secureJSONDecoderOnEvent .endEv = .rejected connectionClosedMsg ∧
    secureJSONDecoderOnEvent localDestroyEvent = .rejected connectionClosedMsg ∧
    plainJSONDecoderOnEvent .endEv = .rejected connectionClosedMsg ∧
    plainJSONDecoderOnEvent localDestroyEvent = .rejected connectionClosedMsg :=
  ⟨rfl, rfl, rfl, rfl, rfl, rfl⟩

/-- Counterexample for C10 as stated: for the empty token,
`saveToken("")` resolves (the stored content is `"".trim()`), but the
subsequent `loadToken()` rejects the empty file instead of returning
`"".trim()`. -/
theorem saveToken_empty_load_fails :
    saveToken [] none = .ok (some []) ∧
    loadToken (some []) =
      .error (.loadError
        "Token file is empty. Please use the set-token command to save a valid token.".toList) := by
  constructor
  · rfl
  · rfl

/-- C10 (amended): whenever `saveToken(t)` resolves, the stored file
content is exactly `t.trim()`, and — provided `t.trim()` is non-empty — a
subsequent `loadToken()` returns `t.trim()`. -/
theorem saveToken_stores_trimmed_loadToken_roundtrip (t : List Char)
    (fs fs2 : TokenFile) (hsave : saveToken t fs = .ok fs2)
    (hne : trimJs t ≠ []) :
    fs2 = some (trimJs t) ∧ loadToken fs2 = .ok (trimJs t) := by
  rw [saveToken, trimJs_idem, if_pos rfl] at hsave
  have hfs2 : fs2 = some (trimJs t) := by
    cases hsave
    rfl
  refine ⟨hfs2, ?_⟩
  rw [hfs2, loadToken, trimJs_idem,
      if_neg (by simpa [List.isEmpty_iff] using hne)]

/-- Witness for the amended C10 statement at the token `" abc "`. -/
theorem saveToken_stores_trimmed_loadToken_roundtrip_witness :
    some ("abc".toList) = some (trimJs " abc ".toList) ∧
    loadToken (some ("abc".toList)) = .ok (trimJs " abc ".toList) :=
  saveToken_stores_trimmed_loadToken_roundtrip " abc ".toList none
    (some ("abc".toList)) (by rfl) (by decide)
